import Mathlib

/-!
Shallow embedding of the request-light HTTP client (node implementation):
the xhr pipeline, the request issuer with in-protocol redirect handling,
the buffered end-of-body handler, content-decoding selection, proxy
resolution, and cancellation/abort error propagation. The network and
the zlib decompressors are uninterpreted parameters. String operations
are implemented over character lists so that all definitions evaluate
by kernel reduction.
-/

set_option autoImplicit false

namespace RequestLight

/-- Leading-segment test on character lists. -/
def charsLeadWith : List Char → List Char → Bool
  | _, [] => true
  | [], _ :: _ => false
  | a :: as, b :: bs => a = b && charsLeadWith as bs

/-- `strStartsWith s p` models JavaScript `s.startsWith(p)`. -/
def strStartsWith (s p : String) : Bool :=
  charsLeadWith s.data p.data

/-- Split a character list at the first occurrence of a non-empty separator. -/
def splitFirst (sep : List Char) : List Char → Option (List Char × List Char)
  | [] => none
  | c :: cs =>
    if charsLeadWith (c :: cs) sep then some ([], (c :: cs).drop sep.length)
    else
      match splitFirst sep cs with
      | some (pre, post) => some (c :: pre, post)
      | none => none

/-- JavaScript string-disjunction `a || b` on possibly-undefined strings:
the empty string is falsy. -/
def jsOrStr (a b : Option String) : Option String :=
  match a with
  | some s => if s = "" then b else some s
  | none => b

/-- JavaScript `a || d` where the fallback is a definite string. -/
def jsOrStrD (a : Option String) (d : String) : String :=
  match a with
  | some s => if s = "" then d else s
  | none => d

/-- JavaScript truthiness of a possibly-undefined string. -/
def jsTruthyStr (a : Option String) : Bool :=
  match a with
  | some s => s ≠ ""
  | none => false

/-- JavaScript `n > 0` on a possibly-undefined number (undefined compares false). -/
def jsGtZero (a : Option Int) : Bool :=
  match a with
  | some n => 0 < n
  | none => false

/-- Result of the legacy node `url.parse`, restricted to the fields the code reads. -/
structure Url where
  protocol : Option String
  hostname : Option String
  port : Option String
  path : Option String
  deriving DecidableEq

/-- Model of node `url.parse` for http(s) URLs: the scheme is everything
before the first `://`, the authority runs to the next `/` (userinfo before
an `@` is dropped, an optional port follows a `:`), and the remainder is
the path, which defaults to `/` as in node. -/
def parseUrl (s : String) : Url :=
  match splitFirst "://".data s.data with
  | some (scheme, rest) =>
    let authority := rest.takeWhile (fun c => c ≠ '/')
    let path := rest.drop authority.length
    let path := if path.isEmpty then "/".data else path
    let hostport :=
      match splitFirst "@".data authority with
      | some (_, hp) => hp
      | none => authority
    match splitFirst ":".data hostport with
    | some (h, p) =>
      ⟨some (String.mk scheme ++ ":"), some (String.mk h), some (String.mk p),
        some (String.mk path)⟩
    | none =>
      ⟨some (String.mk scheme ++ ":"), some (String.mk hostport), none,
        some (String.mk path)⟩
  | none => ⟨none, none, none, some s⟩

/-- Model of node `url.format` on an object with `protocol`, `hostname`,
`port` and `pathname` fields, as built at the two redirect-resolution sites. -/
def formatUrl (protocol hostname port : Option String) (pathname : String) : String :=
  (protocol.getD "") ++ "//" ++ (hostname.getD "")
    ++ (match port with
        | some p => if p = "" then "" else ":" ++ p
        | none => "")
    ++ pathname

/-- Resolution of a redirect `Location` value: a value starting with `/` is
formatted against the original scheme, host and port; any other value is
taken as-is. Shared by the issuer-level and the buffered-level redirect code. -/
def resolveRedirectLocation (endpoint : Url) (location : String) : String :=
  if strStartsWith location "/" then
    formatUrl endpoint.protocol endpoint.hostname endpoint.port location
  else
    location

/-! ## Bytes and UTF-8 decoding (Buffer.toString) -/

/-- A byte buffer: each entry is a byte value below 256. -/
abbrev Bytes := List Nat

/-- Is a byte a UTF-8 continuation byte. -/
def isContinuationByte (b : Nat) : Bool :=
  0x80 ≤ b ∧ b < 0xC0

/-- UTF-8 decoding with replacement of ill-formed sequences, with explicit
fuel bounding the number of decoded characters (the input length suffices,
since every character consumes at least one byte). -/
def utf8CharsAux : Nat → Bytes → List Char
  | 0, _ => []
  | _ + 1, [] => []
  | fuel + 1, b :: rest =>
    if b < 0x80 then Char.ofNat b :: utf8CharsAux fuel rest
    else if 0xC2 ≤ b ∧ b ≤ 0xDF then
      match rest with
      | c1 :: rest1 =>
        if isContinuationByte c1 then
          Char.ofNat ((b - 0xC0) * 0x40 + (c1 - 0x80)) :: utf8CharsAux fuel rest1
        else Char.ofNat 0xFFFD :: utf8CharsAux fuel rest
      | [] => [Char.ofNat 0xFFFD]
    else if 0xE0 ≤ b ∧ b ≤ 0xEF then
      match rest with
      | c1 :: c2 :: rest2 =>
        if isContinuationByte c1 ∧ isContinuationByte c2 then
          Char.ofNat ((b - 0xE0) * 0x1000 + (c1 - 0x80) * 0x40 + (c2 - 0x80))
            :: utf8CharsAux fuel rest2
        else Char.ofNat 0xFFFD :: utf8CharsAux fuel rest
      | _ => [Char.ofNat 0xFFFD]
    else if 0xF0 ≤ b ∧ b ≤ 0xF4 then
      match rest with
      | c1 :: c2 :: c3 :: rest3 =>
        if isContinuationByte c1 ∧ isContinuationByte c2 ∧ isContinuationByte c3 then
          Char.ofNat ((b - 0xF0) * 0x40000 + (c1 - 0x80) * 0x1000
            + (c2 - 0x80) * 0x40 + (c3 - 0x80)) :: utf8CharsAux fuel rest3
        else Char.ofNat 0xFFFD :: utf8CharsAux fuel rest
      | _ => [Char.ofNat 0xFFFD]
    else Char.ofNat 0xFFFD :: utf8CharsAux fuel rest

/-- UTF-8 decoding of a byte buffer, modelling node `Buffer.prototype.toString`
with the default encoding. -/
def utf8Chars (l : Bytes) : List Char :=
  utf8CharsAux l.length l

/-- `Buffer.concat(data).toString()` on collected chunks. -/
def bufferToString (b : Bytes) : String :=
  String.mk (utf8Chars b)

/-! ## Data model: options, responses, errors, the network -/

/-- A transport agent as produced by the proxy resolver (http-proxy-agent or
https-proxy-agent over a proxy URL). -/
inductive Agent where
  | httpProxy (proxyUrl : String)
  | httpsProxy (proxyUrl : String) (rejectUnauthorized : Bool)
  deriving DecidableEq

/-- The cancellation token surface read by the code: only whether cancellation
was already requested when the token is consulted. -/
structure CancellationToken where
  isCancellationRequested : Bool
  deriving DecidableEq

/-- Request options, with `none` for absent (undefined) fields. `responseType`
is `some "stream"` exactly for the streamed mode. -/
structure XHROptions where
  url : String
  type : Option String := none
  user : Option String := none
  password : Option String := none
  headers : List (String × String) := []
  timeout : Option Nat := none
  data : Option String := none
  followRedirects : Option Int := none
  strictSSL : Option Bool := none
  agent : Option Agent := none
  token : Option CancellationToken := none
  responseType : Option String := none
  deriving DecidableEq

/-- The buffered response shape delivered on resolution and on rejection. -/
structure XHRResponse where
  responseText : String
  body : Bytes
  status : Nat
  headers : List (String × String)
  deriving DecidableEq

/-- The two error identities flowing through the pipeline: the distinguished
abort error, or a transport error with a message. -/
inductive JsError where
  | abortError
  | netError (message : String)
  deriving DecidableEq

/-- The `message` property of an error value. -/
def JsError.message : JsError → String
  | .abortError => "The user aborted a request"
  | .netError m => m

/-- `AbortError.is`: identity check for the abort error, an `instanceof` test
in the code, not message-text matching. -/
def AbortError.is : JsError → Bool
  | .abortError => true
  | .netError _ => false

/-- How the body of one raw response is observed: the data events followed by
the end event, or data events followed by an error event. -/
inductive BodyOutcome where
  | ended (chunks : List Bytes)
  | errored (received : List Bytes) (error : JsError)
  deriving DecidableEq

/-- A raw response from the transport: status line, headers (names already
lowercased by node) and the observed body events. -/
structure RawResponse where
  statusCode : Nat
  headers : List (String × String)
  body : BodyOutcome
  deriving DecidableEq

/-- `res.headers[name]` on the lowercased header mapping. -/
def headerLookup (headers : List (String × String)) (name : String) : Option String :=
  (headers.find? (fun p => p.1 = name)).map (fun p => p.2)

/-- The transport-level request options assembled by `request` and handed to
`http.request` or `https.request`. -/
structure NetRequest where
  hostname : Option String
  port : Option Nat
  path : Option String
  method : String
  headers : List (String × String)
  auth : Option String
  agent : Option Agent
  rejectUnauthorized : Bool
  secure : Bool
  timeout : Option Nat
  data : Option String
  deriving DecidableEq

/-- What the transport does with one wire request. -/
inductive NetResult where
  | response (res : RawResponse)
  | connError (message : String)
  deriving DecidableEq

/-- The network: an oracle from assembled transport options to an outcome. -/
abbrev Network := NetRequest → NetResult

/-- JavaScript `parseInt` on a port string, as a partial natural: the longest
leading digit run, or `none` when there is none (NaN). -/
def parsePortInt (s : String) : Option Nat :=
  let digits := s.data.takeWhile (fun c => c.isDigit)
  if digits.isEmpty then none
  else some (digits.foldl (fun n c => n * 10 + (c.toNat - 48)) 0)

/-- Whether the token field demands immediate abort at this stage. -/
def tokenCancelled (token : Option CancellationToken) : Bool :=
  match token with
  | some t => t.isCancellationRequested
  | none => false

/-! ## Proxy resolution -/

/-- The proxy-related environment variables, `none` for unset. -/
structure ProxyEnv where
  HTTP_PROXY : Option String := none
  http_proxy : Option String := none
  HTTPS_PROXY : Option String := none
  https_proxy : Option String := none
  deriving DecidableEq

/-- The options record taken by `getProxyAgent`. -/
structure ProxyOptions where
  proxyUrl : Option String := none
  strictSSL : Option Bool := none
  deriving DecidableEq

/-- `getSystemProxyURI`: the environment proxy variable for the scheme of the
target URL; an https target falls back from the HTTPS variables to the HTTP
ones, any other scheme yields null. -/
def getSystemProxyURI (env : ProxyEnv) (requestURL : Url) : Option String :=
  if requestURL.protocol = some "http:" then
    jsOrStr env.HTTP_PROXY (jsOrStr env.http_proxy none)
  else if requestURL.protocol = some "https:" then
    jsOrStr env.HTTPS_PROXY (jsOrStr env.https_proxy
      (jsOrStr env.HTTP_PROXY (jsOrStr env.http_proxy none)))
  else
    none

/-- The proxy URL consulted by `getProxyAgent`: the explicit one when truthy,
else the environment one. -/
def resolveProxyUrl (env : ProxyEnv) (options : ProxyOptions) (requestURL : Url) :
    Option String :=
  jsOrStr options.proxyUrl (getSystemProxyURI env requestURL)

/-- `getProxyAgent`: resolve the proxy URL, return no agent when it is absent
or does not start with an http or https scheme, and otherwise build the agent
matching the scheme of the target URL, the https agent carrying the strict-TLS
flag with default true. -/
def getProxyAgent (env : ProxyEnv) (rawRequestURL : String) (options : ProxyOptions) :
    Option Agent :=
  let requestURL := parseUrl rawRequestURL
  match resolveProxyUrl env options requestURL with
  | none => none
  | some proxyURL =>
    if proxyURL = "" then none
    else if ¬ (strStartsWith proxyURL "http:" ∨ strStartsWith proxyURL "https:") then none
    else if requestURL.protocol = some "http:" then
      some (Agent.httpProxy proxyURL)
    else
      some (Agent.httpsProxy proxyURL (options.strictSSL.getD true))

/-! ## The request issuer -/

/-- `ReqResult` is how the `request` promise settles: the final raw response
after issuer-level redirect hops, or the error handed to `req.on(error)`. -/
inductive ReqResult where
  | ok (res : RawResponse)
  | err (error : JsError)
  deriving DecidableEq

/-- The transport options assembled by `request` from the parsed endpoint and
the call options. -/
def mkRequestOpts (endpoint : Url) (options : XHROptions) : NetRequest :=
  { hostname := endpoint.hostname
    port :=
      match endpoint.port with
      | some p => if p = "" then some (if endpoint.protocol = some "https:" then 443 else 80)
                  else parsePortInt p
      | none => some (if endpoint.protocol = some "https:" then 443 else 80)
    path := endpoint.path
    method := jsOrStrD options.type "GET"
    headers := options.headers
    auth :=
      match options.user, options.password with
      | some u, some p => if u ≠ "" ∧ p ≠ "" then some (u ++ ":" ++ p) else none
      | _, _ => none
    agent := options.agent
    rejectUnauthorized := options.strictSSL.getD true
    secure := endpoint.protocol = some "https:"
    timeout := options.timeout
    data := options.data }

/-- The `request` function: reject with the abort error when the token is
already triggered, reject with a transport error on connection failure, and
otherwise run the response handler, which transparently re-issues the
exchange when the status is in [300,400), the redirect budget is a positive
number and a truthy `location` header is present, with the same options
except the resolved target URL and a decremented budget. -/
def requestModel (net : Network) (options : XHROptions) : ReqResult :=
  let endpoint := parseUrl options.url
  if tokenCancelled options.token then .err .abortError
  else
    match net (mkRequestOpts endpoint options) with
    | .connError message => .err (.netError message)
    | .response res =>
      if h : 300 ≤ res.statusCode ∧ res.statusCode < 400 ∧
          jsGtZero options.followRedirects = true ∧
          jsTruthyStr (headerLookup res.headers "location") = true then
        requestModel net
          { options with
            url := resolveRedirectLocation endpoint
              ((headerLookup res.headers "location").getD "")
            followRedirects := some (options.followRedirects.getD 0 - 1) }
      else .ok res
termination_by (options.followRedirects.getD 0).toNat
decreasing_by
  obtain ⟨-, -, hgt, -⟩ := h
  unfold jsGtZero at hgt
  rcases hfr : options.followRedirects with _ | fr
  · rw [hfr] at hgt
    simp at hgt
  · rw [hfr] at hgt
    simp only [decide_eq_true_eq] at hgt
    simp [hfr]
    omega

/-! ## The response processor -/

/-- `hasNoBody`: a HEAD exchange, an informational status, 204 or 304 never
carries a decodable body. -/
def hasNoBody (method : Option String) (code : Nat) : Bool :=
  method = some "HEAD" ∨ (100 ≤ code ∧ code < 200) ∨ code = 204 ∨ code = 304

/-- Which decompressor the response processor pipes the raw stream through. -/
inductive DecoderChoice where
  | gunzip
  | inflate
  | raw
  deriving DecidableEq

/-- The decompressor selection of the response processor: gzip or deflate
exactly when the `content-encoding` header declares it and the exchange can
carry a body, and the raw stream otherwise. -/
def decoderChoice (method : Option String) (statusCode : Nat)
    (headers : List (String × String)) : DecoderChoice :=
  match headerLookup headers "content-encoding" with
  | none => .raw
  | some encoding =>
    if encoding ≠ "" ∧ ¬ hasNoBody method statusCode then
      if encoding = "gzip" then .gunzip
      else if encoding = "deflate" then .inflate
      else .raw
    else .raw

/-- The zlib decompressors, uninterpreted: how a gunzip or inflate stream
transforms the observed body events. -/
abbrev Decoder := DecoderChoice → BodyOutcome → BodyOutcome

/-- The body events the buffered collector observes: the raw response events,
piped through the selected decompressor when one is selected. -/
def effectiveBody (dec : Decoder) (method : Option String) (res : RawResponse) :
    BodyOutcome :=
  match decoderChoice method res.statusCode res.headers with
  | .raw => res.body
  | c => dec c res.body

/-- Is the status code one the buffered end-of-body handler treats as a
redirect: 300 to 303, or 307. -/
def isBufferedRedirectCode (code : Nat) : Bool :=
  (300 ≤ code ∧ code ≤ 303) ∨ code = 307

/-- Is the status code a success for the buffered classifier: [200,300) or
the legacy IE value 1223. -/
def isSuccessStatus (code : Nat) : Bool :=
  (200 ≤ code ∧ code < 300) ∨ code = 1223

/-- The buffered response assembled at end of body from the collected chunks. -/
def mkBufferedResponse (statusCode : Nat) (headers : List (String × String))
    (chunks : List Bytes) : XHRResponse :=
  let buffer := chunks.flatten
  { responseText := bufferToString buffer
    body := buffer
    status := statusCode
    headers := headers }

/-- What the end-of-body handler decides to do. `fault` records a thrown
TypeError: the handler reads the `location` header and calls `startsWith` on
it before checking that it is present. -/
inductive EndDecision where
  | fault
  | reissue (newOptions : XHROptions)
  | resolve (response : XHRResponse)
  | reject (response : XHRResponse)
  deriving DecidableEq

/-- The terminal classification of the end-of-body handler: resolve on a
success status, reject with the same assembled response otherwise. -/
def settleDecision (statusCode : Nat) (headers : List (String × String))
    (chunks : List Bytes) : EndDecision :=
  if isSuccessStatus statusCode then .resolve (mkBufferedResponse statusCode headers chunks)
  else .reject (mkBufferedResponse statusCode headers chunks)

/-- The buffered end-of-body handler: when the budget is positive and the
status is a buffered redirect code it dereferences the `location` header
(faulting when the header is absent), resolves it, and when the result is
truthy re-issues the request with a fresh options record that carries over
type, user, password, headers, timeout, data and token, replaces the URL,
decrements the budget, and drops every other field; otherwise it assembles
the buffered response and classifies it by status. -/
def endHandler (options : XHROptions) (statusCode : Nat)
    (headers : List (String × String)) (chunks : List Bytes) : EndDecision :=
  if jsGtZero options.followRedirects ∧ isBufferedRedirectCode statusCode then
    match headerLookup headers "location" with
    | none => .fault
    | some location =>
      if resolveRedirectLocation (parseUrl options.url) location ≠ "" then
        .reissue
          { url := resolveRedirectLocation (parseUrl options.url) location
            type := options.type
            user := options.user
            password := options.password
            headers := options.headers
            timeout := options.timeout
            followRedirects := some (options.followRedirects.getD 0 - 1)
            data := options.data
            token := options.token }
      else settleDecision statusCode headers chunks
  else settleDecision statusCode headers chunks

/-! ## The xhr pipeline -/

/-- The process-wide configuration set by `configure`. -/
structure GlobalConfig where
  proxyUrl : Option String := none
  strictSSL : Bool := true
  deriving DecidableEq

/-- The defaulting performed at the top of `xhr` on a copy of the options:
strict TLS from the global flag when not a boolean, an agent from the proxy
resolver when absent, and a redirect budget of 5 when not a number. -/
def applyDefaults (cfg : GlobalConfig) (env : ProxyEnv) (options : XHROptions) :
    XHROptions :=
  let options :=
    match options.strictSSL with
    | some _ => options
    | none => { options with strictSSL := some cfg.strictSSL }
  let options :=
    match options.agent with
    | some _ => options
    | none =>
      { options with
        agent := getProxyAgent env options.url
          { proxyUrl := cfg.proxyUrl, strictSSL := some cfg.strictSSL } }
  match options.followRedirects with
  | some _ => options
  | none => { options with followRedirects := some 5 }

/-- Is the streamed mode selected (`responseType === "stream"`). -/
def isStreamXHROptions (options : XHROptions) : Bool :=
  options.responseType = some "stream"

/-- How one xhr call settles. The streamed outcome records the status and
headers exposed eagerly; `fault` records an uncaught TypeError in the
end-of-body handler, after which the promise never settles. -/
inductive XhrOutcome where
  | resolvedBuffered (response : XHRResponse)
  | resolvedStream (status : Nat) (headers : List (String × String))
  | rejectedResponse (response : XHRResponse)
  | rejectedAbort
  | fault
  deriving DecidableEq

/-- The rejection payload synthesized for a connection-stage failure: a
404-status response whose message names the target URL, noting proxy
involvement exactly when an agent is in use. -/
def connectionFailureResponse (options : XHROptions) (message : String) : XHRResponse :=
  { responseText :=
      if options.agent.isSome then
        "Unable to connect to " ++ options.url ++ " through a proxy. Error: " ++ message
      else
        "Unable to connect to " ++ options.url ++ ". Error: " ++ message
    body := []
    status := 404
    headers := [] }

/-- The rejection payload synthesized for a mid-body stream failure: a
500-status response carrying the chunks received so far. -/
def streamFailureResponse (options : XHROptions) (received : List Bytes)
    (message : String) : XHRResponse :=
  { responseText := "Unable to access " ++ options.url ++ ". Error: " ++ message
    body := received.flatten
    status := 500
    headers := [] }

/-- The budget recorded in the options re-issued by the end-of-body handler. -/
theorem endHandler_reissue_budget {options : XHROptions} {statusCode : Nat}
    {headers : List (String × String)} {chunks : List Bytes} {o : XHROptions}
    (h : endHandler options statusCode headers chunks = .reissue o) :
    ∃ fr : Int, options.followRedirects = some fr ∧ 0 < fr ∧
      o.followRedirects = some (fr - 1) := by
  unfold endHandler at h
  split at h
  · rename_i hg
    obtain ⟨hfr, -⟩ := hg
    unfold jsGtZero at hfr
    split at hfr
    · rename_i fr heq
      refine ⟨fr, heq, of_decide_eq_true hfr, ?_⟩
      split at h
      · exact absurd h (by simp)
      · split at h
        · simp only [EndDecision.reissue.injEq] at h
          subst h
          simp [heq]
        · unfold settleDecision at h
          split at h <;> simp at h
    · simp at hfr
  · unfold settleDecision at h
    split at h <;> simp at h

/-- The defaulting step does not change a numeric redirect budget. -/
theorem applyDefaults_followRedirects_some {cfg : GlobalConfig} {env : ProxyEnv}
    {options : XHROptions} {fr : Int} (h : options.followRedirects = some fr) :
    (applyDefaults cfg env options).followRedirects = some fr := by
  unfold applyDefaults
  cases hs : options.strictSSL <;> cases ha : options.agent <;>
    simp [hs, ha, h]

/-- The main pipeline after defaulting: issue the request, map connection
failures through the abort identity check, expose status and headers for the
streamed mode, and in buffered mode run the body through the selected
decoder, the end-of-body handler, and on a re-issue decision run the full
xhr call (defaulting included) on the fresh options. -/
def xhrCore (cfg : GlobalConfig) (env : ProxyEnv) (net : Network) (dec : Decoder)
    (options : XHROptions) : XhrOutcome :=
  match requestModel net options with
  | .err e =>
    if AbortError.is e then .rejectedAbort
    else .rejectedResponse (connectionFailureResponse options e.message)
  | .ok res =>
    if isStreamXHROptions options then
      .resolvedStream res.statusCode res.headers
    else
      match effectiveBody dec options.type res with
      | .errored received e =>
        if AbortError.is e then .rejectedAbort
        else .rejectedResponse (streamFailureResponse options received e.message)
      | .ended chunks =>
        match hend : endHandler options res.statusCode res.headers chunks with
        | .fault => .fault
        | .resolve r => .resolvedBuffered r
        | .reject r => .rejectedResponse r
        | .reissue o => xhrCore cfg env net dec (applyDefaults cfg env o)
termination_by (options.followRedirects.getD 0).toNat
decreasing_by
  obtain ⟨fr, hfr, hpos, hnew⟩ := endHandler_reissue_budget hend
  rw [applyDefaults_followRedirects_some hnew, hfr]
  simp
  omega

/-- The exported xhr operation: default the options, then run the pipeline. -/
def xhrModel (cfg : GlobalConfig) (env : ProxyEnv) (net : Network) (dec : Decoder)
    (options : XHROptions) : XhrOutcome :=
  xhrCore cfg env net dec (applyDefaults cfg env options)

/-- Sanity facts about the URL model: parsing splits scheme, host, port and
path, and redirect resolution keeps absolute targets while re-rooting
path-only targets. -/
theorem parseUrl_formatUrl_sanity :
    parseUrl "http://h:8080/a" = ⟨some "http:", some "h", some "8080", some "/a"⟩ ∧
    parseUrl "https://example.com" =
      ⟨some "https:", some "example.com", none, some "/"⟩ ∧
    resolveRedirectLocation (parseUrl "http://h:8080/a") "/b" = "http://h:8080/b" ∧
    resolveRedirectLocation (parseUrl "http://h/a") "http://other/z" =
      "http://other/z" := by
  decide

/-! ## Shared lemmas about the defaulting step -/

/-- Defaulting touches only `strictSSL`, `agent` and `followRedirects`: every
other field of the options is preserved. -/
theorem applyDefaults_preserves (cfg : GlobalConfig) (env : ProxyEnv)
    (options : XHROptions) :
    (applyDefaults cfg env options).url = options.url ∧
    (applyDefaults cfg env options).type = options.type ∧
    (applyDefaults cfg env options).user = options.user ∧
    (applyDefaults cfg env options).password = options.password ∧
    (applyDefaults cfg env options).headers = options.headers ∧
    (applyDefaults cfg env options).timeout = options.timeout ∧
    (applyDefaults cfg env options).data = options.data ∧
    (applyDefaults cfg env options).token = options.token ∧
    (applyDefaults cfg env options).responseType = options.responseType := by
  unfold applyDefaults
  cases hs : options.strictSSL <;> cases ha : options.agent <;>
    cases hf : options.followRedirects <;> simp [hs, ha, hf]

/-! ## Concrete networks and decoders used at witness inputs -/

/-- A test network: path `/a` answers 302 with Location `/b`, everything else
answers 200 with an empty body. -/
def redirectNet : Network := fun r =>
  if r.path = some "/a" then .response ⟨302, [("location", "/b")], .ended []⟩
  else .response ⟨200, [], .ended []⟩

/-- The identity decoder, for concrete instantiations where no decompression
is selected. -/
def idDecoder : Decoder := fun _ b => b

/-- A test network answering 200 with a marker header on every request. -/
def plain200Net : Network := fun _ => .response ⟨200, [("x-final", "yes")], .ended []⟩

/-- A test network: path `/a` answers 301 with Location `/b`, everything else
answers 200 with a marker header. -/
def streamRedirectNet : Network := fun r =>
  if r.path = some "/a" then .response ⟨301, [("location", "/b")], .ended []⟩
  else .response ⟨200, [("x-final", "yes")], .ended []⟩

/-- A test network answering 304 with a gzip content-encoding and empty body. -/
def gzip304Net : Network := fun _ =>
  .response ⟨304, [("content-encoding", "gzip")], .ended []⟩

/-- A test network refusing every connection. -/
def refuseNet : Network := fun _ => .connError "ECONNREFUSED"

/-! ## Claim theorems -/

/-- C1: for every buffered-mode exchange whose terminal (non-redirected)
response has status in [200,300) or equal to 1223, the xhr call resolves with
a Response whose status matches and whose body is the concatenation of the
exact decoded bytes received; for every other terminal status the call
rejects, and the rejection payload is the fully assembled Response (status,
headers, body) rather than a bare error. -/
theorem buffered_terminal_classification
    (cfg : GlobalConfig) (env : ProxyEnv) (net : Network) (dec : Decoder)
    (options : XHROptions) (res : RawResponse) (chunks : List Bytes)
    (hstream : isStreamXHROptions (applyDefaults cfg env options) = false)
    (hreq : requestModel net (applyDefaults cfg env options) = .ok res)
    (hbody : effectiveBody dec (applyDefaults cfg env options).type res = .ended chunks)
    (hterm : ¬ (jsGtZero (applyDefaults cfg env options).followRedirects = true ∧
      isBufferedRedirectCode res.statusCode = true)) :
    (isSuccessStatus res.statusCode = true →
      xhrModel cfg env net dec options =
        .resolvedBuffered (mkBufferedResponse res.statusCode res.headers chunks)) ∧
    (isSuccessStatus res.statusCode = false →
      xhrModel cfg env net dec options =
        .rejectedResponse (mkBufferedResponse res.statusCode res.headers chunks)) := by
  have hend : endHandler (applyDefaults cfg env options) res.statusCode res.headers chunks =
      settleDecision res.statusCode res.headers chunks := by
    unfold endHandler
    rw [if_neg hterm]
  have hx : xhrModel cfg env net dec options =
      match settleDecision res.statusCode res.headers chunks with
      | .fault => XhrOutcome.fault
      | .resolve r => .resolvedBuffered r
      | .reject r => .rejectedResponse r
      | .reissue o => xhrCore cfg env net dec (applyDefaults cfg env o) := by
    unfold xhrModel
    rw [xhrCore, hreq]
    simp only [hstream, Bool.false_eq_true, if_false, hbody]
    split <;> rename_i h' <;> rw [hend] at h' <;> rw [h']
  constructor <;> intro hs
  · rw [hx]
    unfold settleDecision
    rw [if_pos hs]
  · rw [hx]
    unfold settleDecision
    rw [if_neg (by simp [hs])]

/-- C1 witness: a direct 200 response with two body chunks resolves with the
concatenated bytes, at concrete inputs discharging every hypothesis. -/
theorem buffered_terminal_classification_witness :
    isSuccessStatus 200 = true ∧
    xhrModel {} {} (fun _ => .response ⟨200, [], .ended [[72], [105]]⟩) (fun _ b => b)
      { url := "http://h/a" } =
      .resolvedBuffered (mkBufferedResponse 200 [] [[72], [105]]) := by
  refine ⟨rfl, (buffered_terminal_classification {} {}
    (fun _ => .response ⟨200, [], .ended [[72], [105]]⟩) (fun _ b => b)
    { url := "http://h/a" } ⟨200, [], .ended [[72], [105]]⟩ [[72], [105]]
    ?_ ?_ ?_ ?_).1 rfl⟩
  · rfl
  · simp [requestModel, applyDefaults, getProxyAgent, resolveProxyUrl, getSystemProxyURI,
      jsOrStr, mkRequestOpts, parseUrl, splitFirst, charsLeadWith, tokenCancelled,
      headerLookup, jsOrStrD, parsePortInt]
  · rfl
  · decide

/-- C3: at the issuer level, when the immediate response status is in
[300,400), a truthy Location header is present, and the hop budget is a
positive number, the exchange is transparently restarted against the redirect
target, resolving a path-only Location against the original scheme, host and
port, with the budget decremented by one, so the caller observes only the
final leg; when any of the three conditions fails, the response is delivered
as-is. -/
theorem issuer_redirect_behavior (net : Network) (options : XHROptions)
    (res : RawResponse)
    (htok : tokenCancelled options.token = false)
    (hnet : net (mkRequestOpts (parseUrl options.url) options) = .response res) :
    (∀ fr location, options.followRedirects = some fr → 0 < fr →
      headerLookup res.headers "location" = some location → location ≠ "" →
      300 ≤ res.statusCode → res.statusCode < 400 →
      requestModel net options =
        requestModel net
          { options with
            url := resolveRedirectLocation (parseUrl options.url) location
            followRedirects := some (fr - 1) }) ∧
    ((¬ (300 ≤ res.statusCode ∧ res.statusCode < 400) ∨
      jsTruthyStr (headerLookup res.headers "location") = false ∨
      jsGtZero options.followRedirects = false) →
      requestModel net options = .ok res) := by
  constructor
  · intro fr location hfr hpos hloc hne h3 h4
    conv_lhs => rw [requestModel]
    simp only [htok, Bool.false_eq_true, if_false, hnet]
    rw [dif_pos ⟨h3, h4, by simp [jsGtZero, hfr, hpos], by simp [jsTruthyStr, hloc, hne]⟩]
    simp only [hloc, hfr, Option.getD_some]
  · intro hfail
    rw [requestModel]
    simp only [htok, Bool.false_eq_true, if_false, hnet]
    rw [dif_neg]
    rintro ⟨g3, g4, ggt, gloc⟩
    rcases hfail with h | h | h
    · exact h ⟨g3, g4⟩
    · rw [h] at gloc
      exact Bool.false_ne_true gloc
    · rw [h] at ggt
      exact Bool.false_ne_true ggt

/-- C3 witness: against `redirectNet`, a 302 with a path-only Location and
budget 2 restarts against the resolved URL with budget 1, and the same
response with budget 0 is delivered as-is, at concrete inputs discharging
every hypothesis. -/
theorem issuer_redirect_behavior_witness :
    requestModel redirectNet { url := "http://h/a", followRedirects := some 2 } =
      requestModel redirectNet { url := "http://h/b", followRedirects := some 1 } ∧
    requestModel redirectNet { url := "http://h/a", followRedirects := some 0 } =
      .ok ⟨302, [("location", "/b")], .ended []⟩ := by
  constructor
  · have h := (issuer_redirect_behavior redirectNet
      { url := "http://h/a", followRedirects := some 2 }
      ⟨302, [("location", "/b")], .ended []⟩ rfl (by decide)).1 2 "/b" rfl (by decide)
      rfl (by decide) (by decide) (by decide)
    exact h
  · exact (issuer_redirect_behavior redirectNet
      { url := "http://h/a", followRedirects := some 0 }
      ⟨302, [("location", "/b")], .ended []⟩ rfl (by decide)).2
      (Or.inr (Or.inr rfl))

/-- C4 counterexample: the options re-issued by the buffered end-of-body
handler are not a copy of the original with only `url` replaced and
`followRedirects` decremented: an original with an explicit `strictSSL` and
`agent` is re-issued with both fields dropped (undefined). -/
theorem reissue_options_not_full_copy :
    endHandler
      ⟨"http://h/a", none, none, none, [], none, none, some 5, some false,
        some (Agent.httpProxy "http://p:1"), none, none⟩
      301 [("location", "http://h/b")] [] ≠
      .reissue
        { (⟨"http://h/a", none, none, none, [], none, none, some 5, some false,
            some (Agent.httpProxy "http://p:1"), none, none⟩ : XHROptions) with
          url := "http://h/b", followRedirects := some 4 } ∧
    endHandler
      ⟨"http://h/a", none, none, none, [], none, none, some 5, some false,
        some (Agent.httpProxy "http://p:1"), none, none⟩
      301 [("location", "http://h/b")] [] =
      .reissue
        { url := "http://h/b", followRedirects := some 4, strictSSL := none,
          agent := none } := by
  decide

/-- C4 (amended): when the buffered end-of-body handler re-issues, the fresh
options carry over `type`, `user`, `password`, `headers`, `timeout`, `data`
and `token`, replace `url` with the resolved location, decrement
`followRedirects` by one, and leave `strictSSL`, `agent` and `responseType`
undefined (they are re-derived by the defaulting of the re-issued call). -/
theorem reissue_options_fields (options : XHROptions) (statusCode : Nat)
    (headers : List (String × String)) (chunks : List Bytes) (fr : Int)
    (location : String)
    (hfr : options.followRedirects = some fr) (hpos : 0 < fr)
    (hcode : isBufferedRedirectCode statusCode = true)
    (hloc : headerLookup headers "location" = some location)
    (hres : resolveRedirectLocation (parseUrl options.url) location ≠ "") :
    endHandler options statusCode headers chunks =
      .reissue
        { url := resolveRedirectLocation (parseUrl options.url) location
          type := options.type
          user := options.user
          password := options.password
          headers := options.headers
          timeout := options.timeout
          followRedirects := some (fr - 1)
          data := options.data
          token := options.token
          strictSSL := none
          agent := none
          responseType := none } := by
  unfold endHandler
  rw [if_pos ⟨by simp [jsGtZero, hfr, hpos], hcode⟩, hloc]
  simp only [hres, ne_eq, not_false_iff, if_true, hfr, Option.getD_some]

/-- C4 witness: at concrete inputs with every preserved field populated, the
handler re-issues with exactly the amended field mapping. -/
theorem reissue_options_fields_witness :
    endHandler
      { url := "http://h/a", type := some "POST", user := some "u",
        password := some "pw", headers := [("a", "b")], timeout := some 7,
        data := some "payload", followRedirects := some 3,
        token := some ⟨false⟩ }
      302 [("location", "/next")] [[1, 2]] =
      .reissue
        { url := resolveRedirectLocation (parseUrl "http://h/a") "/next"
          type := some "POST"
          user := some "u"
          password := some "pw"
          headers := [("a", "b")]
          timeout := some 7
          followRedirects := some (3 - 1)
          data := some "payload"
          token := some ⟨false⟩
          strictSSL := none
          agent := none
          responseType := none } := by
  exact reissue_options_fields
    { url := "http://h/a", type := some "POST", user := some "u",
      password := some "pw", headers := [("a", "b")], timeout := some 7,
      data := some "payload", followRedirects := some 3, token := some ⟨false⟩ }
    302 [("location", "/next")] [[1, 2]] 3 "/next" rfl (by decide) (by decide) rfl
    (by decide)

/-- C5: evaluation at the failing input. A 301 response with a positive hop
budget and no Location header drives the buffered end-of-body handler into
the branch that calls `startsWith` on the absent header value, which throws
a TypeError instead of settling or re-issuing, both at the handler level and
through the whole pipeline. -/
theorem end_handler_faults_on_missing_location :
    endHandler { url := "http://h/a", followRedirects := some 5 } 301 [] [] =
      .fault ∧
    xhrModel {} {} (fun _ => .response ⟨301, [], .ended []⟩) idDecoder
      { url := "http://h/a" } = .fault := by
  constructor
  · decide
  · simp [xhrModel, xhrCore, requestModel, applyDefaults, getProxyAgent, resolveProxyUrl,
      getSystemProxyURI, jsOrStr, mkRequestOpts, parseUrl, splitFirst, charsLeadWith,
      tokenCancelled, headerLookup, resolveRedirectLocation, strStartsWith, formatUrl,
      effectiveBody, decoderChoice, hasNoBody, endHandler, jsGtZero, jsTruthyStr,
      isBufferedRedirectCode, settleDecision, isSuccessStatus, mkBufferedResponse,
      bufferToString, utf8Chars, utf8CharsAux, isContinuationByte, jsOrStrD, parsePortInt,
      idDecoder, isStreamXHROptions]

/-- C6: gzip or deflate decompression is selected if and only if the
content-encoding header declares that encoding and the exchange is not a
body-less case (HEAD, [100,200), 204, 304); otherwise the raw stream passes
through unchanged. Consequently a status-304 response declaring gzip is never
pushed through the decoder and the call rejects with empty response text and
status 304. -/
theorem decoder_selection_and_304
    (method : Option String) (s : Nat) (headers : List (String × String))
    (cfg : GlobalConfig) (env : ProxyEnv) (net : Network) (dec : Decoder)
    (options : XHROptions) (res : RawResponse)
    (hstream : isStreamXHROptions (applyDefaults cfg env options) = false)
    (hreq : requestModel net (applyDefaults cfg env options) = .ok res)
    (h304 : res.statusCode = 304)
    (henc : headerLookup res.headers "content-encoding" = some "gzip")
    (hbody : res.body = .ended []) :
    (decoderChoice method s headers = .gunzip ↔
      headerLookup headers "content-encoding" = some "gzip" ∧
        hasNoBody method s = false) ∧
    (decoderChoice method s headers = .inflate ↔
      headerLookup headers "content-encoding" = some "deflate" ∧
        hasNoBody method s = false) ∧
    decoderChoice (applyDefaults cfg env options).type res.statusCode res.headers =
      .raw ∧
    xhrModel cfg env net dec options =
      .rejectedResponse
        { responseText := "", body := [], status := 304, headers := res.headers } := by
  refine ⟨?_, ?_, ?_, ?_⟩
  · unfold decoderChoice
    cases he : headerLookup headers "content-encoding" with
    | none => simp
    | some enc =>
      by_cases hb : hasNoBody method s = true
      · simp [hb]
      · by_cases hg : enc = "gzip"
        · subst hg
          simp [hb, Bool.not_eq_true]
        · by_cases hd : enc = "deflate"
          · subst hd
            simp [hb, hg]
          · simp [hg, hd]
  · unfold decoderChoice
    cases he : headerLookup headers "content-encoding" with
    | none => simp
    | some enc =>
      by_cases hb : hasNoBody method s = true
      · simp [hb]
      · by_cases hg : enc = "gzip"
        · subst hg
          simp [hb]
        · by_cases hd : enc = "deflate"
          · subst hd
            simp [hb, Bool.not_eq_true]
          · simp [hg, hd]
  · unfold decoderChoice
    rw [henc, h304]
    simp [hasNoBody]
  · have hraw : decoderChoice (applyDefaults cfg env options).type res.statusCode
        res.headers = .raw := by
      unfold decoderChoice
      rw [henc, h304]
      simp [hasNoBody]
    have heff : effectiveBody dec (applyDefaults cfg env options).type res =
        .ended [] := by
      unfold effectiveBody
      rw [hraw, hbody]
    have hend : endHandler (applyDefaults cfg env options) res.statusCode res.headers
        [] = settleDecision res.statusCode res.headers [] := by
      unfold endHandler
      rw [if_neg]
      rintro ⟨-, hcode⟩
      rw [h304] at hcode
      simp [isBufferedRedirectCode] at hcode
    unfold xhrModel
    rw [xhrCore, hreq]
    simp only [hstream, Bool.false_eq_true, if_false, heff]
    split <;> rename_i h' <;> rw [hend] at h' <;> unfold settleDecision at h' <;>
      rw [h304] at h' <;> rw [if_neg (by simp [isSuccessStatus])] at h'
    · exact absurd h' (by simp)
    · exact absurd h' (by simp)
    · cases h'
      simp [mkBufferedResponse, bufferToString, utf8Chars, utf8CharsAux]
    · exact absurd h' (by simp)

/-- C6 witness: the gunzip characterization holds at a concrete decodable
input, and a concrete 304-with-gzip exchange rejects with empty response text
and status 304, discharging every hypothesis at concrete inputs. -/
theorem decoder_selection_and_304_witness :
    decoderChoice (some "GET") 200 [("content-encoding", "gzip")] = .gunzip ∧
    xhrModel {} {} gzip304Net idDecoder { url := "http://h/a" } =
      .rejectedResponse
        { responseText := "", body := [], status := 304,
          headers := [("content-encoding", "gzip")] } := by
  have hreq : requestModel gzip304Net (applyDefaults {} {} { url := "http://h/a" }) =
      .ok ⟨304, [("content-encoding", "gzip")], .ended []⟩ := by
    rw [requestModel]
    simp [tokenCancelled, applyDefaults, getProxyAgent, resolveProxyUrl,
      getSystemProxyURI, jsOrStr, gzip304Net, headerLookup, jsGtZero, jsTruthyStr,
      parseUrl, splitFirst, charsLeadWith]
  have h := decoder_selection_and_304 (some "GET") 200 [("content-encoding", "gzip")]
    {} {} gzip304Net idDecoder { url := "http://h/a" }
    ⟨304, [("content-encoding", "gzip")], .ended []⟩ (by decide) hreq rfl rfl rfl
  exact ⟨h.1.mpr ⟨rfl, rfl⟩, h.2.2.2⟩

/-- C2 counterexample: in streamed mode with the default (positive) redirect
budget, a 301 with a Location is not surfaced as-is: the exchange is
re-issued at the issuer level and the caller observes the final leg. -/
theorem stream_redirect_followed_counterexample :
    xhrModel {} {} streamRedirectNet idDecoder
      { url := "http://h/a", responseType := some "stream" } =
      .resolvedStream 200 [("x-final", "yes")] ∧
    xhrModel {} {} streamRedirectNet idDecoder
      { url := "http://h/a", responseType := some "stream" } ≠
      .resolvedStream 301 [("location", "/b")] := by
  have h1 : xhrModel {} {} streamRedirectNet idDecoder
      { url := "http://h/a", responseType := some "stream" } =
      .resolvedStream 200 [("x-final", "yes")] := by
    simp [xhrModel, xhrCore, requestModel, applyDefaults, getProxyAgent, resolveProxyUrl,
      getSystemProxyURI, jsOrStr, mkRequestOpts, parseUrl, splitFirst, charsLeadWith,
      tokenCancelled, headerLookup, resolveRedirectLocation, strStartsWith, formatUrl,
      jsGtZero, jsTruthyStr, jsOrStrD, parsePortInt, streamRedirectNet,
      isStreamXHROptions]
  exact ⟨h1, by rw [h1]; decide⟩

/-- C2 (amended): the response processor performs no redirect handling of its
own in streamed mode: whatever final response the issuer delivers (the issuer
itself still follows redirects pre-body when the budget is positive and a
truthy Location is present) is surfaced immediately with its status and
headers as received. -/
theorem stream_mode_no_processor_redirect
    (cfg : GlobalConfig) (env : ProxyEnv) (net : Network) (dec : Decoder)
    (options : XHROptions) (res : RawResponse)
    (hstream : isStreamXHROptions (applyDefaults cfg env options) = true)
    (hreq : requestModel net (applyDefaults cfg env options) = .ok res) :
    xhrModel cfg env net dec options = .resolvedStream res.statusCode res.headers := by
  unfold xhrModel
  rw [xhrCore, hreq]
  simp only [hstream, if_true]

/-- C2 amended witness: a streamed exchange whose issuer delivers a direct
200 resolves with that status and headers, at concrete inputs discharging
every hypothesis. -/
theorem stream_mode_no_processor_redirect_witness :
    isStreamXHROptions
      (applyDefaults {} {} { url := "http://h/a", responseType := some "stream" }) =
      true ∧
    xhrModel {} {} plain200Net idDecoder
      { url := "http://h/a", responseType := some "stream" } =
      .resolvedStream 200 [("x-final", "yes")] := by
  have hreq : requestModel plain200Net
      (applyDefaults {} {} { url := "http://h/a", responseType := some "stream" }) =
      .ok ⟨200, [("x-final", "yes")], .ended []⟩ := by
    rw [requestModel]
    simp [tokenCancelled, applyDefaults, getProxyAgent, resolveProxyUrl,
      getSystemProxyURI, jsOrStr, plain200Net, headerLookup, jsGtZero, jsTruthyStr,
      parseUrl, splitFirst, charsLeadWith]
  exact ⟨by decide, stream_mode_no_processor_redirect {} {} plain200Net idDecoder
    { url := "http://h/a", responseType := some "stream" }
    ⟨200, [("x-final", "yes")], .ended []⟩ (by decide) hreq⟩

/-- C7: an already-triggered cancellation token rejects the call with the
distinguished abort error whatever the network would do; the abort error is
recognized by identity; and at both the connection stage and the body-read
stage an abort error is propagated as-is, taking precedence over the
synthesized 404 and 500 response payloads. -/
theorem abort_identity_and_precedence
    (cfg : GlobalConfig) (env : ProxyEnv) (net : Network) (dec : Decoder)
    (options : XHROptions) (e : JsError) (received : List Bytes) :
    (AbortError.is e = true ↔ e = .abortError) ∧
    (tokenCancelled options.token = true →
      xhrModel cfg env net dec options = .rejectedAbort) ∧
    (requestModel net (applyDefaults cfg env options) = .err .abortError →
      xhrModel cfg env net dec options = .rejectedAbort) ∧
    (∀ res, requestModel net (applyDefaults cfg env options) = .ok res →
      isStreamXHROptions (applyDefaults cfg env options) = false →
      effectiveBody dec (applyDefaults cfg env options).type res =
        .errored received .abortError →
      xhrModel cfg env net dec options = .rejectedAbort) := by
  refine ⟨?_, ?_, ?_, ?_⟩
  · cases e <;> simp [AbortError.is]
  · intro htok
    have htok' : tokenCancelled (applyDefaults cfg env options).token = true := by
      rw [(applyDefaults_preserves cfg env options).2.2.2.2.2.2.2.1]
      exact htok
    have hreq : requestModel net (applyDefaults cfg env options) = .err .abortError := by
      rw [requestModel]
      simp [htok']
    unfold xhrModel
    rw [xhrCore, hreq]
    simp [AbortError.is]
  · intro hreq
    unfold xhrModel
    rw [xhrCore, hreq]
    simp [AbortError.is]
  · intro res hreq hstream heff
    unfold xhrModel
    rw [xhrCore, hreq]
    simp only [hstream, Bool.false_eq_true, if_false, heff]
    simp [AbortError.is]

/-- C7 witness: a call with an already-cancelled token against a network that
would answer 200 rejects as an abort, discharging every hypothesis at
concrete inputs. -/
theorem abort_identity_and_precedence_witness :
    AbortError.is .abortError = true ∧
    xhrModel {} {} plain200Net idDecoder
      { url := "http://h/a", token := some ⟨true⟩ } = .rejectedAbort :=
  ⟨(abort_identity_and_precedence {} {} plain200Net idDecoder
      { url := "http://h/a", token := some ⟨true⟩ } .abortError []).1.mpr rfl,
    (abort_identity_and_precedence {} {} plain200Net idDecoder
      { url := "http://h/a", token := some ⟨true⟩ } .abortError []).2.1 rfl⟩

/-- C8: an absent redirect budget defaults to 5; and when the budget is 0, a
redirect response is not followed at either level: the end-of-body handler
classifies it by its own status (a 3xx rejects with the full assembled
response), and the issuer delivers it as-is. -/
theorem default_budget_and_exhaustion
    (cfg : GlobalConfig) (env : ProxyEnv) (net : Network) (options : XHROptions)
    (s : Nat) (headers : List (String × String)) (chunks : List Bytes)
    (res : RawResponse) :
    (options.followRedirects = none →
      (applyDefaults cfg env options).followRedirects = some 5) ∧
    (options.followRedirects = some 0 → 300 ≤ s → s < 400 →
      endHandler options s headers chunks =
        .reject (mkBufferedResponse s headers chunks)) ∧
    (options.followRedirects = some 0 → tokenCancelled options.token = false →
      net (mkRequestOpts (parseUrl options.url) options) = .response res →
      requestModel net options = .ok res) := by
  refine ⟨?_, ?_, ?_⟩
  · intro hfr
    unfold applyDefaults
    cases hs : options.strictSSL <;> cases ha : options.agent <;> simp [hs, ha, hfr]
  · intro hfr h3 h4
    unfold endHandler
    rw [if_neg]
    · unfold settleDecision
      rw [if_neg]
      simp only [isSuccessStatus, decide_eq_true_eq]
      omega
    · rintro ⟨hgt, -⟩
      rw [hfr] at hgt
      simp [jsGtZero] at hgt
  · intro hfr htok hnet
    rw [requestModel]
    simp only [htok, Bool.false_eq_true, if_false, hnet]
    rw [dif_neg]
    rintro ⟨-, -, hgt, -⟩
    rw [hfr] at hgt
    simp [jsGtZero] at hgt

/-- C8 witness: defaulting an absent budget yields 5; a 301 at budget 0
rejects with the assembled response; the issuer delivers a 302 as-is at
budget 0; all discharged at concrete inputs. -/
theorem default_budget_and_exhaustion_witness :
    (applyDefaults {} {} { url := "http://h/a" }).followRedirects = some 5 ∧
    endHandler { url := "http://h/a", followRedirects := some 0 } 301
      [("location", "/b")] [] =
      .reject (mkBufferedResponse 301 [("location", "/b")] []) ∧
    requestModel redirectNet { url := "http://h/a", followRedirects := some 0 } =
      .ok ⟨302, [("location", "/b")], .ended []⟩ :=
  ⟨(default_budget_and_exhaustion {} {} redirectNet { url := "http://h/a" } 301
      [("location", "/b")] [] ⟨302, [("location", "/b")], .ended []⟩).1 rfl,
    (default_budget_and_exhaustion {} {} redirectNet
      { url := "http://h/a", followRedirects := some 0 } 301
      [("location", "/b")] [] ⟨302, [("location", "/b")], .ended []⟩).2.1 rfl
      (by decide) (by decide),
    (default_budget_and_exhaustion {} {} redirectNet
      { url := "http://h/a", followRedirects := some 0 } 301
      [("location", "/b")] [] ⟨302, [("location", "/b")], .ended []⟩).2.2 rfl rfl
      (by decide)⟩

/-- C9: every non-abort transport failure before response headers rejects with
a synthesized response of status 404 and empty body whose message names the
target URL, noting proxy involvement exactly when an agent is in use. -/
theorem connection_error_payload
    (cfg : GlobalConfig) (env : ProxyEnv) (net : Network) (dec : Decoder)
    (options : XHROptions) (m : String)
    (hreq : requestModel net (applyDefaults cfg env options) = .err (.netError m)) :
    xhrModel cfg env net dec options =
      .rejectedResponse
        { responseText :=
            if (applyDefaults cfg env options).agent.isSome then
              "Unable to connect to " ++ options.url ++ " through a proxy. Error: " ++ m
            else
              "Unable to connect to " ++ options.url ++ ". Error: " ++ m
          body := []
          status := 404
          headers := [] } := by
  unfold xhrModel
  rw [xhrCore, hreq]
  simp only [AbortError.is, Bool.false_eq_true, if_false]
  unfold connectionFailureResponse JsError.message
  rw [(applyDefaults_preserves cfg env options).1]

/-- C9 witness: a refused connection with no proxy in scope rejects with the
404-status payload naming the URL without the proxy note, discharging the
hypothesis at concrete inputs. -/
theorem connection_error_payload_witness :
    requestModel refuseNet (applyDefaults {} {} { url := "http://h/a" }) =
      .err (.netError "ECONNREFUSED") ∧
    xhrModel {} {} refuseNet idDecoder { url := "http://h/a" } =
      .rejectedResponse
        { responseText := "Unable to connect to http://h/a. Error: ECONNREFUSED"
          body := [], status := 404, headers := [] } := by
  have h1 : requestModel refuseNet (applyDefaults {} {} { url := "http://h/a" }) =
      .err (.netError "ECONNREFUSED") := by
    rw [requestModel]
    simp [tokenCancelled, applyDefaults, getProxyAgent, resolveProxyUrl,
      getSystemProxyURI, jsOrStr, refuseNet, parseUrl, splitFirst, charsLeadWith]
  refine ⟨h1, ?_⟩
  rw [connection_error_payload {} {} refuseNet idDecoder { url := "http://h/a" }
    "ECONNREFUSED" h1]
  decide

/-- C10: an explicit truthy proxy URL is used as-is; otherwise the
environment variable chain for the scheme of the target is consulted (https
targets fall back from the HTTPS variables to the HTTP ones, http targets
check only the HTTP ones); an absent resolution or one without an http or
https scheme yields no agent (direct connection) rather than a failure. -/
theorem proxy_resolution
    (env : ProxyEnv) (popts : ProxyOptions) (u : Url) (p : String)
    (rawUrl : String) (m : String) :
    (popts.proxyUrl = some p → p ≠ "" → resolveProxyUrl env popts u = some p) ∧
    ((popts.proxyUrl = none ∨ popts.proxyUrl = some "") →
      u.protocol = some "https:" →
      resolveProxyUrl env popts u =
        jsOrStr env.HTTPS_PROXY (jsOrStr env.https_proxy
          (jsOrStr env.HTTP_PROXY (jsOrStr env.http_proxy none)))) ∧
    ((popts.proxyUrl = none ∨ popts.proxyUrl = some "") →
      u.protocol = some "http:" →
      resolveProxyUrl env popts u = jsOrStr env.HTTP_PROXY (jsOrStr env.http_proxy none)) ∧
    (resolveProxyUrl env popts (parseUrl rawUrl) = none →
      getProxyAgent env rawUrl popts = none) ∧
    (resolveProxyUrl env popts (parseUrl rawUrl) = some m →
      ¬ (strStartsWith m "http:" = true ∨ strStartsWith m "https:" = true) →
      getProxyAgent env rawUrl popts = none) := by
  refine ⟨?_, ?_, ?_, ?_, ?_⟩
  · intro hp hne
    unfold resolveProxyUrl jsOrStr
    rw [hp]
    simp [hne]
  · intro hp hproto
    have hres : resolveProxyUrl env popts u = getSystemProxyURI env u := by
      unfold resolveProxyUrl
      rcases hp with h | h <;> simp [jsOrStr, h]
    rw [hres]
    unfold getSystemProxyURI
    rw [hproto]
    simp
  · intro hp hproto
    have hres : resolveProxyUrl env popts u = getSystemProxyURI env u := by
      unfold resolveProxyUrl
      rcases hp with h | h <;> simp [jsOrStr, h]
    rw [hres]
    unfold getSystemProxyURI
    rw [hproto]
    simp
  · intro hnone
    unfold getProxyAgent
    simp only [hnone]
  · intro hsome hbad
    unfold getProxyAgent
    simp only [hsome]
    by_cases hm : m = "" <;> simp [hm, hbad]

/-- C10 witness: an https target with only the lowercase https variable empty
and the uppercase HTTP variable set resolves through the fallback chain, and
an explicit proxy URL with an ftp scheme yields no agent, discharging every
hypothesis at concrete inputs. -/
theorem proxy_resolution_witness :
    resolveProxyUrl ⟨some "http://hp:1", none, none, some ""⟩ ⟨none, none⟩
      (parseUrl "https://h/a") = some "http://hp:1" ∧
    getProxyAgent ⟨none, none, none, none⟩ "http://h/a" ⟨some "ftp://p:1", none⟩ =
      none := by
  constructor
  · have h := (proxy_resolution ⟨some "http://hp:1", none, none, some ""⟩ ⟨none, none⟩
      (parseUrl "https://h/a") "" "" "").2.1 (Or.inl rfl) (by decide)
    rw [h]
    decide
  · exact (proxy_resolution ⟨none, none, none, none⟩ ⟨some "ftp://p:1", none⟩
      (parseUrl "http://h/a") "" "http://h/a" "ftp://p:1").2.2.2.2 (by decide)
      (by decide)

end RequestLight
